import Mathlib

/-!
Verification of the secure webhook ingestion pipeline of `data_processor.py`.

The development shallowly embeds the parts of the source that the claims
touch:

* `jsonDumpsWith` / `jsonDumps` — Python `json.dumps` (default separators
  `", "` and `": "`, `ensure_ascii=True`) over a structured JSON value;
  `process_webhook_data` calls it to re-derive the payload bytes.
* `utf8Encode` — `str.encode("utf-8")`.
* `sha256`, `hmacSha256Hex` — genuine SHA-256 and HMAC-SHA256 over byte
  lists (bytes are `Nat`s reduced mod 256, words mod 2^32), hex-encoded in
  lowercase exactly as `hashlib`'s `hexdigest` does.  Known-answer theorems
  below check the implementation against published test vectors.
* `is_valid_hmac` — `DataProcessor._is_valid_hmac`.
* `process_webhook_data` — `DataProcessor.process_webhook_data`, modelled as
  a pure function from an environment (configuration, database rows, and
  oracles for the fallible database / network calls) to a `ProcOut` record
  holding the returned dictionary, the post-state of the database, the
  logged rowcount, the ordered trace of database/network effects, and the
  byte string that was handed to the signature verifier (if verification
  was attempted).
* `fetch_user_query` / `delete_user_query` — the two parameterized SQL
  statements built by `fetch_user_data` and the `delete_user` branch.
-/

/-! ## JSON values and Python `json.dumps` -/

inductive JsonVal where
  | jnull
  | jbool (b : Bool)
  | jint (n : Int)
  | jstr (s : String)
  | jarr (xs : List JsonVal)
  | jobj (fields : List (String × JsonVal))

def hexDigitChar (n : Nat) : Char :=
  if n < 10 then Char.ofNat (48 + n) else Char.ofNat (87 + n)

def u4hex (n : Nat) : String :=
  String.mk [hexDigitChar (n / 4096 % 16), hexDigitChar (n / 256 % 16),
             hexDigitChar (n / 16 % 16), hexDigitChar (n % 16)]

/-- Escaping of one character inside a JSON string, as CPython's
`json.dumps` with `ensure_ascii=True` does it: the two-character escapes
for quote, backslash and the common control characters, `\uXXXX` for the
remaining characters outside `0x20..0x7e`, surrogate pairs above the BMP. -/
def escapeJsonChar (c : Char) : String :=
  if c = '"' then "\\\""
  else if c = '\\' then "\\\\"
  else if c = '\n' then "\\n"
  else if c = '\r' then "\\r"
  else if c = '\t' then "\\t"
  else if c.toNat = 8 then "\\b"
  else if c.toNat = 12 then "\\f"
  else if c.toNat < 32 then "\\u" ++ u4hex c.toNat
  else if c.toNat ≤ 126 then String.singleton c
  else if c.toNat < 65536 then "\\u" ++ u4hex c.toNat
  else
    let v := c.toNat - 65536
    "\\u" ++ u4hex (55296 + v / 1024) ++ "\\u" ++ u4hex (56320 + v % 1024)

def dumpJsonString (s : String) : String :=
  "\"" ++ String.join (s.data.map escapeJsonChar) ++ "\""

mutual
/-- Python `json.dumps` with explicit `separators=(itemSep, kvSep)`. -/
def jsonDumpsWith (itemSep kvSep : String) : JsonVal → String
  | .jnull => "null"
  | .jbool true => "true"
  | .jbool false => "false"
  | .jint n => toString n
  | .jstr s => dumpJsonString s
  | .jarr xs => "[" ++ jsonDumpsArr itemSep kvSep xs ++ "]"
  | .jobj fs => "\x7b" ++ jsonDumpsObj itemSep kvSep fs ++ "\x7d"

def jsonDumpsArr (itemSep kvSep : String) : List JsonVal → String
  | [] => ""
  | [x] => jsonDumpsWith itemSep kvSep x
  | x :: y :: rest =>
    jsonDumpsWith itemSep kvSep x ++ itemSep ++ jsonDumpsArr itemSep kvSep (y :: rest)

def jsonDumpsObj (itemSep kvSep : String) : List (String × JsonVal) → String
  | [] => ""
  | [(k, v)] => dumpJsonString k ++ kvSep ++ jsonDumpsWith itemSep kvSep v
  | (k, v) :: y :: rest =>
    dumpJsonString k ++ kvSep ++ jsonDumpsWith itemSep kvSep v ++ itemSep ++
      jsonDumpsObj itemSep kvSep (y :: rest)
end

/-- `json.dumps` with the default separators, which is what
`process_webhook_data` executes in `json.dumps(webhook_body)`. -/
def jsonDumps : JsonVal → String := jsonDumpsWith ", " ": "

/-- `str.encode("utf-8")`, one codepoint at a time. -/
def utf8EncodeChar (c : Char) : List Nat :=
  let n := c.toNat
  if n < 128 then [n]
  else if n < 2048 then [192 + n / 64, 128 + n % 64]
  else if n < 65536 then [224 + n / 4096, 128 + n / 64 % 64, 128 + n % 64]
  else [240 + n / 262144, 128 + n / 4096 % 64, 128 + n / 64 % 64, 128 + n % 64]

def utf8Encode (s : String) : List Nat := (s.data.map utf8EncodeChar).flatten

/-! ## SHA-256 and HMAC-SHA256 (FIPS 180-4 / RFC 2104) -/

def w32 (n : Nat) : Nat := n % 4294967296

def rotr32 (x n : Nat) : Nat := w32 (x / 2 ^ n + x % 2 ^ n * 2 ^ (32 - n))

def not32 (x : Nat) : Nat := 4294967295 - w32 x

def shaCh (x y z : Nat) : Nat := (x &&& y) ^^^ (not32 x &&& z)

def shaMaj (x y z : Nat) : Nat := (x &&& y) ^^^ (x &&& z) ^^^ (y &&& z)

def bigSigma0 (x : Nat) : Nat := rotr32 x 2 ^^^ rotr32 x 13 ^^^ rotr32 x 22

def bigSigma1 (x : Nat) : Nat := rotr32 x 6 ^^^ rotr32 x 11 ^^^ rotr32 x 25

def smallSigma0 (x : Nat) : Nat := rotr32 x 7 ^^^ rotr32 x 18 ^^^ x / 8

def smallSigma1 (x : Nat) : Nat := rotr32 x 17 ^^^ rotr32 x 19 ^^^ x / 1024

/-- The 64 round constants of FIPS 180-4 (written in decimal). -/
def shaK : List Nat :=
  [1116352408, 1899447441, 3049323471, 3921009573, 961987163,
   1508970993, 2453635748, 2870763221, 3624381080, 310598401,
   607225278, 1426881987, 1925078388, 2162078206, 2614888103,
   3248222580, 3835390401, 4022224774, 264347078, 604807628,
   770255983, 1249150122, 1555081692, 1996064986, 2554220882,
   2821834349, 2952996808, 3210313671, 3336571891, 3584528711,
   113926993, 338241895, 666307205, 773529912, 1294757372,
   1396182291, 1695183700, 1986661051, 2177026350, 2456956037,
   2730485921, 2820302411, 3259730800, 3345764771, 3516065817,
   3600352804, 4094571909, 275423344, 430227734, 506948616,
   659060556, 883997877, 958139571, 1322822218, 1537002063,
   1747873779, 1955562222, 2024104815, 2227730452, 2361852424,
   2428436474, 2756734187, 3204031479, 3329325298]

/-- The initial hash state of FIPS 180-4 (written in decimal). -/
def shaH0 : List Nat :=
  [1779033703, 3144134277, 1013904242, 2773480762, 1359893119,
   2600822924, 528734635, 1541459225]

def bytesToWords : List Nat → List Nat
  | a :: b :: c :: d :: rest => (a * 16777216 + b * 65536 + c * 256 + d) :: bytesToWords rest
  | _ => []

def extendW : Nat → List Nat → List Nat
  | 0, w => w
  | n + 1, w =>
    let l := w.length
    let nw := w32 (smallSigma1 (w.getD (l - 2) 0) + w.getD (l - 7) 0 +
                   smallSigma0 (w.getD (l - 15) 0) + w.getD (l - 16) 0)
    extendW n (w ++ [nw])

def compressRound (st : List Nat) (kw : Nat) : List Nat :=
  match st with
  | [a, b, c, d, e, f, g, h] =>
    let t1 := w32 (h + bigSigma1 e + shaCh e f g + kw)
    let t2 := w32 (bigSigma0 a + shaMaj a b c)
    [w32 (t1 + t2), a, b, c, w32 (d + t1), e, f, g]
  | other => other

def compressBlock (st : List Nat) (block : List Nat) : List Nat :=
  let w := extendW 48 (bytesToWords block)
  let kw := List.zipWith (fun k x => w32 (k + x)) shaK w
  let st2 := kw.foldl compressRound st
  List.zipWith (fun x y => w32 (x + y)) st st2

def processBlocks : Nat → List Nat → List Nat → List Nat
  | 0, _, st => st
  | n + 1, msg, st => processBlocks n (msg.drop 64) (compressBlock st (msg.take 64))

def toBytesBE (numBytes n : Nat) : List Nat :=
  (List.range numBytes).map fun i => n / 2 ^ (8 * (numBytes - 1 - i)) % 256

def sha256 (msg : List Nat) : List Nat :=
  let zeros := (64 + 55 - msg.length % 64) % 64
  let padded := msg ++ 128 :: List.replicate zeros 0 ++ toBytesBE 8 (msg.length * 8)
  let final := processBlocks (padded.length / 64) padded shaH0
  (final.map (toBytesBE 4)).flatten

/-- Lowercase hex encoding, as `hexdigest()` produces. -/
def hexEncode (bs : List Nat) : String :=
  String.mk ((bs.map fun b => [hexDigitChar (b / 16), hexDigitChar (b % 16)]).flatten)

def hmacSha256 (key msg : List Nat) : List Nat :=
  let k0 := if key.length > 64 then sha256 key else key
  let k := k0 ++ List.replicate (64 - k0.length) 0
  let ipadKey := k.map fun b => b ^^^ 54
  let opadKey := k.map fun b => b ^^^ 92
  sha256 (opadKey ++ sha256 (ipadKey ++ msg))

/-- `hmac.new(key, msg, hashlib.sha256).hexdigest()`. -/
def hmacSha256Hex (key msg : List Nat) : String := hexEncode (hmacSha256 key msg)

/-! ## The `DataProcessor` model -/

/-- One row of the `user_data` table (see `ensure_table`). -/
structure UserRow where
  id : Int
  username : String
  password_hash : Option String
  credit_card_encrypted : Option String
  ssn_encrypted : Option String
  created_at : Nat
deriving DecidableEq

/-- A parameterized SQL statement: fixed query text plus typed bindings,
as produced by `text(...)` together with the parameter dictionary. -/
structure SqlQuery where
  text : String
  params : List (String × Int)
deriving DecidableEq

/-- The query built by `fetch_user_data` (line 129). -/
def fetch_user_query (user_id : Int) : SqlQuery :=
  ⟨"SELECT id, username, password_hash, credit_card_encrypted, ssn_encrypted, created_at FROM user_data WHERE id = :uid",
   [("uid", user_id)]⟩

/-- The query built by the `delete_user` branch of `process_webhook_data`
(line 261). -/
def delete_user_query (user_id : Int) : SqlQuery :=
  ⟨"DELETE FROM user_data WHERE id = :uid", [("uid", user_id)]⟩

/-- Observable side effects of one invocation, in order. -/
inductive Effect where
  | dbExec (q : SqlQuery)
  | httpPost (url : String) (body : JsonVal)

/-- The dictionary returned by `process_webhook_data`: a `status` key that
is always present, plus the optional `message` / `forward_status` /
`forward_error` keys. -/
structure WebhookResult where
  status : String
  message : Option String
  forward_status : Option Nat
  forward_error : Option String
deriving DecidableEq

/-- Outcome of the outbound `session.post` to `WEBHOOK_ENDPOINT`: either a
response with some HTTP status code (no exception is raised for non-2xx),
or a `requests.RequestException` (timeout / connection error). -/
inductive ForwardOutcome where
  | ok (status : Nat)
  | exn (msg : String)
deriving DecidableEq

/-- The module-level configuration read from the environment. -/
structure Config where
  webhookSecret : Option String
  webhookEndpoint : Option String
  dbConfigured : Bool
deriving DecidableEq

/-- Environment of one invocation: configuration, current database rows,
and oracles for what the fallible database / network calls would do. -/
structure Env where
  cfg : Config
  db : List UserRow
  dbFails : Bool
  forward : ForwardOutcome
deriving DecidableEq

def setForward (e : Env) (f : ForwardOutcome) : Env := ⟨e.cfg, e.db, e.dbFails, f⟩

def setDb (e : Env) (rows : List UserRow) : Env := ⟨e.cfg, rows, e.dbFails, e.forward⟩

/-- Full output of one modelled invocation.  `verified_payload` records the
byte string handed to the signature verifier when verification was
attempted (`none` when no signing secret is configured). -/
structure ProcOut where
  result : WebhookResult
  db : List UserRow
  rowcount : Option Nat
  effects : List Effect
  verified_payload : Option (List Nat)

/-- Python truthiness of an optional string (`if WEBHOOK_SECRET:`). -/
def optTruthy : Option String → Bool
  | none => false
  | some s => !(s == "")

/-- `dict.get` on the webhook body. -/
def dictGet (d : List (String × JsonVal)) (k : String) : Option JsonVal :=
  match d.find? fun kv => kv.1 == k with
  | none => none
  | some kv => some kv.2

def optAny (p : JsonVal → Bool) : Option JsonVal → Bool
  | none => false
  | some v => p v

/-- `isinstance(x, int)` on a JSON value: Python `bool` is a subclass of
`int`, so JSON booleans pass the check. -/
def isPyInt : JsonVal → Bool
  | .jint _ => true
  | .jbool _ => true
  | _ => false

/-- The integer value Python would bind for a value passing
`isinstance(x, int)` (`True == 1`, `False == 0`). -/
def pyIntValue : JsonVal → Int
  | .jint n => n
  | .jbool b => if b then 1 else 0
  | _ => 0

/-- `action == "delete_user"`: in Python a non-string compares unequal to
a string, so only the exact JSON string matches. -/
def isDeleteAction : Option JsonVal → Bool
  | some (.jstr s) => s == "delete_user"
  | _ => false

/-- `header.split("=", 1)`: split at the first occurrence of `c`;
`none` when `c` does not occur (in the source the two-element unpacking
then raises, which the surrounding `except` turns into `False`). -/
def splitAtFirst (c : Char) : List Char → Option (List Char × List Char)
  | [] => none
  | x :: xs =>
    if x = c then some ([], xs)
    else
      match splitAtFirst c xs with
      | none => none
      | some (p, r) => some (x :: p, r)

def asciiLowerChar (c : Char) : Char :=
  if 65 ≤ c.toNat ∧ c.toNat ≤ 90 then Char.ofNat (c.toNat + 32) else c

/-- `str.lower()` restricted to ASCII, which is extensionally adequate for
the single comparison against `"sha256"` it feeds. -/
def asciiLower (s : String) : String := String.mk (s.data.map asciiLowerChar)

/-- `DataProcessor._is_valid_hmac(secret, payload, signature_header)`
(lines 221-235): guard on empty secret / header, parse the header at the
first `=`, lowercase the algorithm token and compare to `"sha256"`,
then compare the computed hex digest with the header's digest
(`hmac.compare_digest` is functionally string equality). -/
def is_valid_hmac (secret : String) (payload : List Nat) (signature_header : String) : Bool :=
  if secret == "" || signature_header == "" then false
  else
    match splitAtFirst '=' signature_header.data with
    | none => false
    | some (algoChars, sigChars) =>
      if !(asciiLower (String.mk algoChars) == "sha256") then false
      else hmacSha256Hex (utf8Encode secret) payload == String.mk sigChars

/-- The forwarding tail of `process_webhook_data` (lines 270-280): POST the
original body to `WEBHOOK_ENDPOINT` when one is configured; a response of
any status yields `processed` with `forward_status`, a
`requests.RequestException` yields `processed` with `forward_error`. -/
def forwardStep (env : Env) (db : List UserRow) (rowcount : Option Nat)
    (effects : List Effect) (webhook_body : List (String × JsonVal))
    (verified : Option (List Nat)) : ProcOut :=
  if optTruthy env.cfg.webhookEndpoint then
    let url := env.cfg.webhookEndpoint.getD ""
    match env.forward with
    | .ok status =>
      ⟨⟨"processed", none, some status, none⟩, db, rowcount,
        effects ++ [.httpPost url (.jobj webhook_body)], verified⟩
    | .exn msg =>
      ⟨⟨"processed", none, none, some msg⟩, db, rowcount,
        effects ++ [.httpPost url (.jobj webhook_body)], verified⟩
  else ⟨⟨"processed", none, none, none⟩, db, rowcount, effects, verified⟩

/-- `DataProcessor.process_webhook_data` (lines 237-284).  The payload fed
to the verifier is `json.dumps(webhook_body).encode("utf-8")` — a
re-serialization of the structured body (line 243).  Authentication runs
first when a secret is configured; then `user_id` is validated; then the
`delete_user` branch issues the parameterized delete (failing with
`db not configured` / `db error` as in the source); finally the event is
optionally forwarded. -/
def process_webhook_data (env : Env) (webhook_body : List (String × JsonVal))
    (signature_header : Option String) : ProcOut :=
  let raw_payload := utf8Encode (jsonDumps (.jobj webhook_body))
  let secretOn := optTruthy env.cfg.webhookSecret
  let verified := if secretOn then some raw_payload else none
  if secretOn &&
      !(is_valid_hmac (env.cfg.webhookSecret.getD "") raw_payload (signature_header.getD ""))
  then ⟨⟨"error", some "invalid signature", none, none⟩, env.db, none, [], verified⟩
  else
    match dictGet webhook_body "user_id" with
    | none => ⟨⟨"error", some "invalid user_id", none, none⟩, env.db, none, [], verified⟩
    | some uidVal =>
      if !(isPyInt uidVal) then
        ⟨⟨"error", some "invalid user_id", none, none⟩, env.db, none, [], verified⟩
      else
        let uid := pyIntValue uidVal
        if isDeleteAction (dictGet webhook_body "action") then
          if !env.cfg.dbConfigured then
            ⟨⟨"error", some "db not configured", none, none⟩, env.db, none, [], verified⟩
          else if env.dbFails then
            ⟨⟨"error", some "db error", none, none⟩, env.db, none,
              [.dbExec (delete_user_query uid)], verified⟩
          else
            forwardStep env (env.db.filter fun r => !(r.id == uid))
              (some (env.db.countP fun r => r.id == uid))
              [.dbExec (delete_user_query uid)] webhook_body verified
        else
          forwardStep env env.db none [] webhook_body verified

/-- `DataProcessor.fetch_user_data` (lines 124-139): parameterized
fetch-by-id; `none` both when the database is not configured and when no
row matches. -/
def fetch_user_data (env : Env) (user_id : Int) : Option UserRow :=
  if !env.cfg.dbConfigured then none
  else env.db.find? fun r => r.id == user_id

/-! ## Known-answer checks for the embedded cryptography -/

set_option maxRecDepth 8000 in
/-- SHA-256 of the empty message, against the FIPS 180-4 value. -/
theorem sha256_empty_vector :
    hexEncode (sha256 []) =
      "e3b0c44298fc1c149afbf4c8996fb92427ae41e4649b934ca495991b7852b855" := by decide

set_option maxRecDepth 8000 in
/-- SHA-256 of `"abc"`, against the FIPS 180-4 value. -/
theorem sha256_abc_vector :
    hexEncode (sha256 (utf8Encode "abc")) =
      "ba7816bf8f01cfea414140de5dae2223b00361a396177a9cb410ff61f20015ad" := by decide

set_option maxRecDepth 8000 in
/-- HMAC-SHA256 test case 1 of RFC 4231 (20 bytes of `0x0b`, `"Hi There"`). -/
theorem hmac_rfc4231_vector :
    hmacSha256Hex (List.replicate 20 11) (utf8Encode "Hi There") =
      "b0344c61d8db38535ca8afceaf0bf12b881dc200c9833da726e9376c2e32cff7" := by decide

/-! ## Helper lemmas -/

theorem stringDataAppend (a b : String) : (a ++ b).data = a.data ++ b.data := by
  cases a; cases b; rfl

theorem stringMkData (s : String) : String.mk s.data = s := by
  cases s; rfl

theorem splitAtFirst_not_mem (c : Char) (l : List Char) (h : c ∉ l) :
    splitAtFirst c l = none := by
  induction l with
  | nil => rfl
  | cons x xs ih =>
    simp only [List.mem_cons, not_or] at h
    have hx : ¬(x = c) := fun hx => h.1 hx.symm
    simp [splitAtFirst, hx, ih h.2]

theorem splitAtFirst_append (c : Char) (pre rest : List Char) (h : c ∉ pre) :
    splitAtFirst c (pre ++ c :: rest) = some (pre, rest) := by
  induction pre with
  | nil => simp [splitAtFirst]
  | cons x xs ih =>
    simp only [List.mem_cons, not_or] at h
    have hx : ¬(x = c) := fun hx => h.1 hx.symm
    simp [splitAtFirst, hx, ih h.2]

theorem forwardStep_status (env : Env) (db : List UserRow) (rc : Option Nat)
    (eff : List Effect) (body : List (String × JsonVal)) (v : Option (List Nat)) :
    (forwardStep env db rc eff body v).result.status = "processed" := by
  unfold forwardStep
  split
  · cases env.forward <;> rfl
  · rfl

theorem forwardStep_db (env : Env) (db : List UserRow) (rc : Option Nat)
    (eff : List Effect) (body : List (String × JsonVal)) (v : Option (List Nat)) :
    (forwardStep env db rc eff body v).db = db := by
  unfold forwardStep
  split
  · cases env.forward <;> rfl
  · rfl

theorem forwardStep_rowcount (env : Env) (db : List UserRow) (rc : Option Nat)
    (eff : List Effect) (body : List (String × JsonVal)) (v : Option (List Nat)) :
    (forwardStep env db rc eff body v).rowcount = rc := by
  unfold forwardStep
  split
  · cases env.forward <;> rfl
  · rfl

theorem forwardStep_no_endpoint (env : Env) (db : List UserRow) (rc : Option Nat)
    (eff : List Effect) (body : List (String × JsonVal)) (v : Option (List Nat))
    (h : optTruthy env.cfg.webhookEndpoint = false) :
    forwardStep env db rc eff body v = ⟨⟨"processed", none, none, none⟩, db, rc, eff, v⟩ := by
  simp [forwardStep, h]

theorem forwardStep_exn (env : Env) (db : List UserRow) (rc : Option Nat)
    (eff : List Effect) (body : List (String × JsonVal)) (v : Option (List Nat)) (m : String)
    (hep : optTruthy env.cfg.webhookEndpoint = true) (hf : env.forward = .exn m) :
    (forwardStep env db rc eff body v).result = ⟨"processed", none, none, some m⟩ := by
  simp [forwardStep, hep, hf]

theorem forwardStep_ok (env : Env) (db : List UserRow) (rc : Option Nat)
    (eff : List Effect) (body : List (String × JsonVal)) (v : Option (List Nat)) (s : Nat)
    (hep : optTruthy env.cfg.webhookEndpoint = true) (hf : env.forward = .ok s) :
    (forwardStep env db rc eff body v).result = ⟨"processed", none, some s, none⟩ := by
  simp [forwardStep, hep, hf]

theorem countP_filter_ne (l : List UserRow) (uid : Int) :
    ((l.filter fun r => !(r.id == uid)).countP fun r => r.id == uid) = 0 := by
  rw [List.countP_eq_zero]
  intro a ha
  have h := List.of_mem_filter ha
  simp only [Bool.not_eq_true'] at h
  simp [h]

theorem filter_ne_idem (l : List UserRow) (uid : Int) :
    ((l.filter fun r => !(r.id == uid)).filter fun r => !(r.id == uid)) =
      l.filter fun r => !(r.id == uid) := by
  rw [List.filter_filter]
  simp

/-- Evaluation of the verifier on a well-formed header `<algo>=<digest>`:
when the secret is non-empty and the algorithm token lowercases to
`"sha256"`, the verifier returns exactly the comparison of the computed
digest with the header digest. -/
theorem is_valid_hmac_parsed (secret : String) (payload : List Nat) (algoStr d : String)
    (h1 : secret ≠ "") (h2 : '=' ∉ algoStr.data) (h3 : asciiLower algoStr = "sha256") :
    is_valid_hmac secret payload (algoStr ++ "=" ++ d) =
      (hmacSha256Hex (utf8Encode secret) payload == d) := by
  have hdata : (algoStr ++ "=" ++ d).data = algoStr.data ++ '=' :: d.data := by
    rw [stringDataAppend, stringDataAppend]
    simp
  have hsec : (secret == "") = false := by
    cases hb : secret == "" with
    | false => rfl
    | true => exact absurd (eq_of_beq hb) h1
  have hne : ((algoStr ++ "=" ++ d) == "") = false := by
    cases hb : (algoStr ++ "=" ++ d) == "" with
    | false => rfl
    | true =>
      have := congrArg String.data (eq_of_beq hb)
      rw [hdata] at this
      simp at this
  unfold is_valid_hmac
  rw [hdata, splitAtFirst_append _ _ _ h2]
  simp [hsec, hne, stringMkData, h3]

/-! ## Concrete environments used by witnesses and counterexamples -/

/-- Development mode: no signing secret, no forwarding endpoint, no
database configured, empty database. -/
def envPlain : Env := ⟨⟨none, none, false⟩, [], false, ForwardOutcome.ok 200⟩

/-- Signing secret `"k"` configured, nothing else. -/
def envSecret : Env := ⟨⟨some "k", none, false⟩, [], false, ForwardOutcome.ok 200⟩

/-- Forwarding endpoint configured and timing out, no secret, no db. -/
def envForward : Env :=
  ⟨⟨none, some "https://internal.example/hook", false⟩, [], false, ForwardOutcome.exn "timeout"⟩

/-! ## Claims -/

/-- C3: whenever a signing secret is configured and the signature header is
missing or fails verification, `process_webhook_data` terminates with the
outcome `error: invalid signature`, the effect trace is empty — no database
access and no outbound network access happened — the database is unchanged,
and no validation detail is produced (validation is reachable only after
authentication). -/
theorem c3_auth_failure_aborts_without_side_effects
    (env : Env) (body : List (String × JsonVal)) (hdr : Option String)
    (hsec : optTruthy env.cfg.webhookSecret = true)
    (hbad : is_valid_hmac (env.cfg.webhookSecret.getD "")
      (utf8Encode (jsonDumps (.jobj body))) (hdr.getD "") = false) :
    process_webhook_data env body hdr =
      ⟨⟨"error", some "invalid signature", none, none⟩, env.db, none, [],
        some (utf8Encode (jsonDumps (.jobj body)))⟩ := by
  simp [process_webhook_data, hsec, hbad]

/-- Concrete instance of C3: secret configured, header absent. -/
theorem c3_auth_failure_witness :
    process_webhook_data envSecret [("user_id", JsonVal.jint 1)] none =
      ⟨⟨"error", some "invalid signature", none, none⟩, [], none, [],
        some (utf8Encode (jsonDumps (.jobj [("user_id", JsonVal.jint 1)])))⟩ :=
  c3_auth_failure_aborts_without_side_effects envSecret _ none rfl rfl

/-- C2 counterexample: a body whose `action` key is missing is not
rejected — the code never validates `action` — so the invocation returns
`processed` (here with no secret, endpoint or database configured) instead
of the `error: invalid action` outcome the claim requires. -/
theorem c2_missing_action_not_rejected :
    process_webhook_data envPlain [("user_id", JsonVal.jint 7)] none =
      ⟨⟨"processed", none, none, none⟩, [], none, [], none⟩ := rfl

/-- C2 (amended): only `user_id` is validated — if it is missing or fails
`isinstance(user_id, int)` (Python booleans count as ints), the outcome is
`error: invalid user_id` with no effects and the database unchanged;
`action` is never validated, a missing or non-string `action` merely skips
the delete branch. -/
theorem c2_invalid_user_id_rejected
    (env : Env) (body : List (String × JsonVal)) (hdr : Option String)
    (hauth : optTruthy env.cfg.webhookSecret = false ∨
      is_valid_hmac (env.cfg.webhookSecret.getD "")
        (utf8Encode (jsonDumps (.jobj body))) (hdr.getD "") = true)
    (huid : optAny isPyInt (dictGet body "user_id") = false) :
    process_webhook_data env body hdr =
      ⟨⟨"error", some "invalid user_id", none, none⟩, env.db, none, [],
        if optTruthy env.cfg.webhookSecret then
          some (utf8Encode (jsonDumps (.jobj body))) else none⟩ := by
  have hcond : (optTruthy env.cfg.webhookSecret &&
      !(is_valid_hmac (env.cfg.webhookSecret.getD "")
        (utf8Encode (jsonDumps (.jobj body))) (hdr.getD ""))) = false := by
    rcases hauth with h | h <;> simp [h]
  cases hg : dictGet body "user_id" with
  | none => simp [process_webhook_data, hcond, hg]
  | some v =>
    have hv : isPyInt v = false := by
      rw [hg] at huid
      simpa [optAny] using huid
    simp [process_webhook_data, hcond, hg, hv]

/-- Concrete instance of the amended C2: the spec example
`process({"user_id": "abc", "action": "delete_user"})` errors naming
`user_id` and issues no delete. -/
theorem c2_invalid_user_id_rejected_witness :
    process_webhook_data envPlain
      [("user_id", JsonVal.jstr "abc"), ("action", JsonVal.jstr "delete_user")] none =
      ⟨⟨"error", some "invalid user_id", none, none⟩, [], none, [], none⟩ :=
  c2_invalid_user_id_rejected envPlain _ none (Or.inl rfl) rfl

/-- C7: the SQL text executed by fetch-by-id and delete-by-id is a fixed
string, identical for every pair of caller-supplied ids; the id is bound
only as the typed `uid` parameter, never interpolated into the text. -/
theorem c7_query_text_constant (a b : Int) :
    (fetch_user_query a).text = (fetch_user_query b).text ∧
    (delete_user_query a).text = (delete_user_query b).text ∧
    (fetch_user_query a).params = [("uid", a)] ∧
    (delete_user_query a).params = [("uid", a)] :=
  ⟨rfl, rfl, rfl, rfl⟩

/-- C10: `process_webhook_data` is a total function whose returned
dictionary always carries a `status` key equal to `"processed"` or
`"error"` — every failure path of the source is caught and folded into
such a value. -/
theorem c10_always_returns_status (env : Env) (body : List (String × JsonVal))
    (hdr : Option String) :
    (process_webhook_data env body hdr).result.status = "processed" ∨
    (process_webhook_data env body hdr).result.status = "error" := by
  simp only [process_webhook_data]
  repeat' split
  all_goals first
    | (left; exact forwardStep_status ..)
    | (right; rfl)

/-- C4: once authentication, validation and (when requested) the mutation
succeed, the outcome status is `"processed"` whatever happens during
forwarding: plain `processed` when no endpoint is configured, `processed`
with a `forward_error` detail on a network exception, `processed` with the
`forward_status` detail on any HTTP status (2xx or not); and the committed
database state does not depend on the forwarding outcome. -/
theorem c4_forwarding_failure_absorbed
    (env : Env) (body : List (String × JsonVal)) (hdr : Option String)
    (hauth : optTruthy env.cfg.webhookSecret = false ∨
      is_valid_hmac (env.cfg.webhookSecret.getD "")
        (utf8Encode (jsonDumps (.jobj body))) (hdr.getD "") = true)
    (huid : optAny isPyInt (dictGet body "user_id") = true)
    (hmut : isDeleteAction (dictGet body "action") = true →
      env.cfg.dbConfigured = true ∧ env.dbFails = false) :
    (process_webhook_data env body hdr).result.status = "processed" ∧
    (optTruthy env.cfg.webhookEndpoint = false →
      (process_webhook_data env body hdr).result = ⟨"processed", none, none, none⟩) ∧
    (∀ m, optTruthy env.cfg.webhookEndpoint = true → env.forward = .exn m →
      (process_webhook_data env body hdr).result = ⟨"processed", none, none, some m⟩) ∧
    (∀ s, optTruthy env.cfg.webhookEndpoint = true → env.forward = .ok s →
      (process_webhook_data env body hdr).result = ⟨"processed", none, some s, none⟩) ∧
    (∀ f, (process_webhook_data (setForward env f) body hdr).db =
      (process_webhook_data env body hdr).db) := by
  obtain ⟨v, hv, hint⟩ : ∃ v, dictGet body "user_id" = some v ∧ isPyInt v = true := by
    cases hg : dictGet body "user_id" with
    | none => rw [hg] at huid; simp [optAny] at huid
    | some v =>
      rw [hg] at huid
      exact ⟨v, rfl, by simpa [optAny] using huid⟩
  have key : ∀ e2 : Env, e2.cfg = env.cfg → e2.db = env.db → e2.dbFails = env.dbFails →
      process_webhook_data e2 body hdr =
        forwardStep e2
          (if isDeleteAction (dictGet body "action") then
            env.db.filter fun r => !(r.id == pyIntValue v) else env.db)
          (if isDeleteAction (dictGet body "action") then
            some (env.db.countP fun r => r.id == pyIntValue v) else none)
          (if isDeleteAction (dictGet body "action") then
            [Effect.dbExec (delete_user_query (pyIntValue v))] else [])
          body
          (if optTruthy env.cfg.webhookSecret then
            some (utf8Encode (jsonDumps (.jobj body))) else none) := by
    intro e2 hc hdb hdf
    by_cases hda : isDeleteAction (dictGet body "action") = true
    · obtain ⟨hdbc, hdbf⟩ := hmut hda
      rcases hauth with h | h <;>
        simp [process_webhook_data, h, hv, hint, hda, hdbc, hdbf, hdb, hdf, hc]
    · have hda2 : isDeleteAction (dictGet body "action") = false := by
        simpa using hda
      rcases hauth with h | h <;>
        simp [process_webhook_data, h, hv, hint, hda2, hdb, hdf, hc]
  have hmain := key env rfl rfl rfl
  refine ⟨?_, ?_, ?_, ?_, ?_⟩
  · rw [hmain]; exact forwardStep_status ..
  · intro h
    rw [hmain, forwardStep_no_endpoint _ _ _ _ _ _ h]
  · intro m hep hf
    rw [hmain]; exact forwardStep_exn _ _ _ _ _ _ _ hep hf
  · intro s hep hf
    rw [hmain]; exact forwardStep_ok _ _ _ _ _ _ _ hep hf
  · intro f
    rw [hmain, key (setForward env f) rfl rfl rfl, forwardStep_db, forwardStep_db]

/-- Concrete instance of C4: no secret, forwarding endpoint configured and
timing out — the outcome is still `processed`, with the failure recorded
in `forward_error`. -/
theorem c4_forwarding_failure_absorbed_witness :
    (process_webhook_data envForward [("user_id", JsonVal.jint 5)] none).result =
      ⟨"processed", none, none, some "timeout"⟩ :=
  (c4_forwarding_failure_absorbed envForward [("user_id", JsonVal.jint 5)] none
    (Or.inl rfl) rfl (by decide)).2.2.1 "timeout" rfl rfl

/-- The webhook body of the spec's delete example. -/
def deleteBody (uid : Int) : List (String × JsonVal) :=
  [("user_id", JsonVal.jint uid), ("action", JsonVal.jstr "delete_user")]

/-- C5: with storage configured and working (and no signing secret, as in
the spec's example), a `delete_user` event deletes exactly the rows with
the given id and returns `processed`, reporting their count; replaying the
same event afterwards returns `processed` with zero rows affected and
leaves the database unchanged — an idempotent, non-error outcome. -/
theorem c5_delete_user_idempotent (uid : Int) (env : Env)
    (hsec : optTruthy env.cfg.webhookSecret = false)
    (hdbc : env.cfg.dbConfigured = true)
    (hdbf : env.dbFails = false) :
    (process_webhook_data env (deleteBody uid) none).db =
      (env.db.filter fun r => !(r.id == uid)) ∧
    (process_webhook_data env (deleteBody uid) none).rowcount =
      some (env.db.countP fun r => r.id == uid) ∧
    (process_webhook_data env (deleteBody uid) none).result.status = "processed" ∧
    (process_webhook_data (setDb env (process_webhook_data env (deleteBody uid) none).db)
        (deleteBody uid) none).rowcount = some 0 ∧
    (process_webhook_data (setDb env (process_webhook_data env (deleteBody uid) none).db)
        (deleteBody uid) none).result.status = "processed" ∧
    (process_webhook_data (setDb env (process_webhook_data env (deleteBody uid) none).db)
        (deleteBody uid) none).db =
      (process_webhook_data env (deleteBody uid) none).db := by
  have hv : dictGet (deleteBody uid) "user_id" = some (JsonVal.jint uid) := rfl
  have hda : isDeleteAction (dictGet (deleteBody uid) "action") = true := rfl
  have key : ∀ e2 : Env, e2.cfg = env.cfg → e2.dbFails = false →
      process_webhook_data e2 (deleteBody uid) none =
        forwardStep e2 (e2.db.filter fun r => !(r.id == uid))
          (some (e2.db.countP fun r => r.id == uid))
          [Effect.dbExec (delete_user_query uid)] (deleteBody uid) none := by
    intro e2 hc hdf
    simp [process_webhook_data, hsec, hv, hda, hdbc, hdf, hc, isPyInt, pyIntValue]
  have h1 := key env rfl hdbf
  have hdb1 : (process_webhook_data env (deleteBody uid) none).db =
      env.db.filter fun r => !(r.id == uid) := by
    rw [h1, forwardStep_db]
  have h2 := key (setDb env (process_webhook_data env (deleteBody uid) none).db) rfl hdbf
  refine ⟨hdb1, ?_, ?_, ?_, ?_, ?_⟩
  · rw [h1, forwardStep_rowcount]
  · rw [h1]; exact forwardStep_status ..
  · rw [h2, forwardStep_rowcount]
    simp only [setDb]
    rw [hdb1, countP_filter_ne]
  · rw [h2]; exact forwardStep_status ..
  · rw [h2, forwardStep_db]
    simp only [setDb]
    rw [hdb1, filter_ne_idem]

/-- A stored row with id 42. -/
def rowAlice : UserRow := ⟨42, "alice", some "h", none, none, 0⟩

/-- Database configured with exactly the row 42. -/
def envDb : Env := ⟨⟨none, none, true⟩, [rowAlice], false, ForwardOutcome.ok 200⟩

/-- Concrete instance of C5: deleting user 42 removes the one matching row
(count 1); replaying the delete affects zero rows, still `processed`. -/
theorem c5_delete_user_idempotent_witness :
    (process_webhook_data envDb (deleteBody 42) none).db = [] ∧
    (process_webhook_data envDb (deleteBody 42) none).rowcount = some 1 ∧
    (process_webhook_data envDb (deleteBody 42) none).result.status = "processed" ∧
    (process_webhook_data (setDb envDb (process_webhook_data envDb (deleteBody 42) none).db)
      (deleteBody 42) none).rowcount = some 0 := by
  have h := c5_delete_user_idempotent 42 envDb rfl rfl rfl
  exact ⟨by rw [h.1]; rfl, by rw [h.2.1]; rfl, h.2.2.1, h.2.2.2.1⟩

/-- C8 counterexample: the algorithm-token check lowercases the token
before comparing (`prefix.lower() in ("sha256",)`), so a header whose
token is `"SHA256"` — a token other than `sha256` — is accepted and
verifies successfully, refuting the claim as stated. -/
theorem c8_uppercase_algorithm_accepted :
    is_valid_hmac "k" [] ("SHA256" ++ "=" ++ hmacSha256Hex (utf8Encode "k") []) = true := by
  rw [is_valid_hmac_parsed _ _ _ _ (by decide) (by decide) (by decide)]
  exact beq_self_eq_true _

/-- C8 (amended): the verifier returns `false` — and, being a total
function, never raises — when the secret is empty, when the header is
empty, when the header contains no `=` separator, or when the header
parses as `<algo>=<sig>` with an algorithm token whose ASCII lowercasing
differs from `"sha256"` (the token check is case-insensitive). -/
theorem c8_malformed_inputs_rejected (secret : String) (payload : List Nat) (hdr : String) :
    (secret = "" → is_valid_hmac secret payload hdr = false) ∧
    (hdr = "" → is_valid_hmac secret payload hdr = false) ∧
    ('=' ∉ hdr.data → is_valid_hmac secret payload hdr = false) ∧
    (∀ algoStr sigStr : String, hdr = algoStr ++ "=" ++ sigStr → '=' ∉ algoStr.data →
      asciiLower algoStr ≠ "sha256" → is_valid_hmac secret payload hdr = false) := by
  refine ⟨?_, ?_, ?_, ?_⟩
  · intro h; subst h; simp [is_valid_hmac]
  · intro h; subst h; simp [is_valid_hmac]
  · intro h
    unfold is_valid_hmac
    split
    · rfl
    · rw [splitAtFirst_not_mem _ _ h]
  · intro algoStr sigStr heq h2 h3
    subst heq
    have hdata : (algoStr ++ "=" ++ sigStr).data = algoStr.data ++ '=' :: sigStr.data := by
      rw [stringDataAppend, stringDataAppend]; simp
    unfold is_valid_hmac
    split
    · rfl
    · rw [hdata, splitAtFirst_append _ _ _ h2]
      simp [stringMkData, h3]

/-- Concrete instances of the amended C8: each malformed-input guard fires
and returns `false`. -/
theorem c8_malformed_inputs_rejected_witness :
    is_valid_hmac "" [] "sha256=aa" = false ∧
    is_valid_hmac "k" [] "" = false ∧
    is_valid_hmac "k" [] "sha256aa" = false ∧
    is_valid_hmac "k" [] "md5=aa" = false :=
  ⟨(c8_malformed_inputs_rejected "" [] "sha256=aa").1 rfl,
   (c8_malformed_inputs_rejected "k" [] "").2.1 rfl,
   (c8_malformed_inputs_rejected "k" [] "sha256aa").2.2.1 (by decide),
   (c8_malformed_inputs_rejected "k" [] "md5=aa").2.2.2 "md5" "aa" (by decide)
     (by decide) (by decide)⟩

/-- The webhook body of the C1 scenario. -/
def bodyC1 : List (String × JsonVal) :=
  [("user_id", JsonVal.jint 1), ("action", JsonVal.jstr "noop")]

/-- The bytes the sender actually transmitted and signed: the same JSON
object serialized with the compact separators `(",", ":")` — a perfectly
valid serialization that differs from Python's default `json.dumps`
output only in whitespace. -/
def senderRawC1 : List Nat := utf8Encode (jsonDumpsWith "," ":" (JsonVal.jobj bodyC1))

def secretC1 : String := "topsecret"

/-- The signature header the sender attached: a correct HMAC-SHA256 of the
bytes it sent, under the shared secret. -/
def hdrC1 : String := "sha256" ++ "=" ++ hmacSha256Hex (utf8Encode secretC1) senderRawC1

def envC1 : Env := ⟨⟨some secretC1, none, false⟩, [], false, ForwardOutcome.ok 200⟩

set_option maxRecDepth 20000 in
set_option maxHeartbeats 4000000 in
/-- C1 (refuted by the code): the sender signs the raw bytes it transmits,
yet `process_webhook_data` verifies the HMAC over
`json.dumps(webhook_body).encode("utf-8")` — a re-serialization of the
structured body (line 243) — because the function never receives the
original bytes at all.  Concretely: the sender's signature is valid for
the bytes it signed (first conjunct), the re-serialized bytes differ from
them (second conjunct), and the invocation is rejected with
`error: invalid signature`, `verified_payload` showing that the verifier
was fed the re-serialized bytes (third conjunct). -/
theorem c1_verifies_reserialized_bytes_not_sender_bytes :
    is_valid_hmac secretC1 senderRawC1 hdrC1 = true ∧
    utf8Encode (jsonDumps (JsonVal.jobj bodyC1)) ≠ senderRawC1 ∧
    process_webhook_data envC1 bodyC1 (some hdrC1) =
      ⟨⟨"error", some "invalid signature", none, none⟩, [], none, [],
        some (utf8Encode (jsonDumps (JsonVal.jobj bodyC1)))⟩ := by
  refine ⟨?_, by decide, ?_⟩
  · show is_valid_hmac secretC1 senderRawC1
      ("sha256" ++ "=" ++ hmacSha256Hex (utf8Encode secretC1) senderRawC1) = true
    rw [is_valid_hmac_parsed _ _ _ _ (by decide) (by decide) (by decide)]
    exact beq_self_eq_true _
  · rfl
